import Mathlib

/-!
Shallow embedding of the BOJ money-market-operations ingestion program
(`project.py`, `project_classes.py`).

The program's pure logic — the instrument-name classifier, the table
normalizers, the Operation/Transaction record model, the JSON
save/load bridge and the chart-data query layer — is translated into
executable Lean definitions.  Machine floats of the source carry exact
decimal bid/yield values here modelled by `ℚ`; Python `None` is
modelled by `Option`; a Python exception that escapes a function is
modelled by `Except String`.

The Python regular expressions of the classifier are embedded as
explicit greedy-backtracking matchers over `List Char`
(case-insensitive where the source passes `re.IGNORECASE`), with each
matcher documented by the regex it implements.
-/

set_option maxHeartbeats 4000000
set_option maxRecDepth 100000
set_option synthInstance.maxSize 2000

deriving instance DecidableEq for Except

/-- Case-insensitive character equality (`re.IGNORECASE` over ASCII). -/
def lcEq (a b : Char) : Bool := a.toLower == b.toLower

/-- Match the literal pattern `p` case-insensitively at the head of `s`;
returns the remainder of `s` after the pattern. -/
def matchLitCI : List Char → List Char → Option (List Char)
  | [], s => some s
  | _ :: _, [] => none
  | p :: ps, c :: cs => if lcEq p c then matchLitCI ps cs else none

/-- Holds when `s` starts with the literal pattern `p`, case-insensitively. -/
def startsWithCI (p s : List Char) : Bool := (matchLitCI p s).isSome

/-- All splittings `s = x ++ p ++ r` (with `p` compared case-insensitively),
listed in order of increasing prefix `x`. -/
def splitsCI (p : List Char) : List Char → List (List Char × List Char)
  | [] =>
    match matchLitCI p [] with
    | some r => [(([] : List Char), r)]
    | none => []
  | c :: cs =>
    (match matchLitCI p (c :: cs) with
     | some r => [(([] : List Char), r)]
     | none => []) ++ (splitsCI p cs).map (fun pr => (c :: pr.1, pr.2))

/-- Holds when `s` contains `p` as a substring, case-insensitively.
This is `re.findall(p, s, re.IGNORECASE)` being non-empty for the literal
patterns of the classifier's search table. -/
def containsCI (p s : String) : Bool := !(splitsCI p.toList s.toList).isEmpty

/-- Greedy-backtracking split: try the splittings of `s` around the literal
`p` with the longest prefix first, requiring a non-empty prefix.  This is the
semantics of a Python `.+` followed by the literal `p`: the leading `.+` is
greedy, so the engine commits to the last occurrence of `p` for which the
continuation `k` succeeds. -/
def greedySplit (p : List Char) (s : List Char) (k : List Char → List Char → Option α) :
    Option α :=
  ((splitsCI p s).reverse).findSome? (fun pr => if pr.1.isEmpty then none else k pr.1 pr.2)

/-- Try a matcher at every suffix of `s`, latest start first.  This is the
semantics of a Python `(?:.+)?` followed by the pattern `m`: the optional
greedy gap makes the engine prefer the latest position at which `m` matches
(position zero included). -/
def findLastMatch (m : List Char → Option α) : List Char → Option α
  | [] => m []
  | c :: cs =>
    match findLastMatch m cs with
    | some r => some r
    | none => m (c :: cs)

/-- Greedy `[0-9]?[0-9]` capture: one or two digits, two preferred, such that
`tail` accepts the remainder; returns the captured digit characters. -/
def matchDigitsThen (tail : List Char → Bool) : List Char → Option (List Char)
  | [] => none
  | [d1] => if d1.isDigit && tail [] then some [d1] else none
  | d1 :: d2 :: rest =>
    if d1.isDigit then
      if d2.isDigit && tail rest then some [d1, d2]
      else if tail (d2 :: rest) then some [d1]
      else none
    else none

/-- Matcher for `more than ([0-9]?[0-9]) years?\)?` anchored at the head of
`s`: returns the captured digits and the remainder after the greedily
consumed optional `s` and `)`. -/
def matchMoreThan (s : List Char) : Option (List Char × List Char) :=
  match matchLitCI ("more than ".toList) s with
  | none => none
  | some r =>
    match matchDigitsThen (fun t => startsWithCI (" year".toList) t) r with
    | none => none
    | some ds =>
      let r2 := r.drop ds.length
      let r3 := (matchLitCI (" year".toList) r2).getD r2
      let r4 := match r3 with
                | c :: cs => if lcEq c 's' then cs else r3
                | [] => r3
      let r5 := match r4 with
                | ')' :: cs => cs
                | _ => r4
      some (ds, r5)

/-- Matcher for `up to ([0-9]?[0-9]) years?\)` anchored at the head of `s`:
returns the captured digits.  (Nothing after the `\)` is constrained, since
the surrounding pattern ends there and `re.match` does not anchor the end.) -/
def matchUpToParen (s : List Char) : Option (List Char) :=
  match matchLitCI ("up to ".toList) s with
  | none => none
  | some r =>
    matchDigitsThen
      (fun t => startsWithCI (" years)".toList) t || startsWithCI (" year)".toList) t) r

/-- The two captures of the maturity pattern
`maturity of (?:more than ([0-9]?[0-9]) years?\)?)?(?:(?:.+)?up to ([0-9]?[0-9]) years?\))?`
evaluated on the text following `maturity of `.  The first group is tried
exactly at the current position; the second is searched with a greedy
optional gap. -/
def maturityGroups (rest : List Char) : Option (List Char) × Option (List Char) :=
  match matchMoreThan rest with
  | some dr => (some dr.1, findLastMatch matchUpToParen dr.2)
  | none => (none, findLastMatch matchUpToParen rest)

/-- Matcher for the auction-method ("floating") maturity pattern
`.+ maturity of (?:more than (\d?\d) years?\)?)?(?:(?:.+)?up to (\d?\d) years?\))?`
(`re.match`, `re.IGNORECASE`): the match succeeds exactly when `s` contains
` maturity of ` preceded by at least one character, and the two optional
captures are extracted after the last such occurrence. -/
def matchMaturityAuction (s : List Char) :
    Option (Option (List Char) × Option (List Char)) :=
  greedySplit (" maturity of ".toList) s (fun _ rest => some (maturityGroups rest))

/-- Matcher for the fixed-rate-method maturity pattern
`.+ \(fixed-rate method\) .+ maturity of …` (same maturity tail as the
auction pattern). -/
def matchMaturityFixed (s : List Char) :
    Option (Option (List Char) × Option (List Char)) :=
  greedySplit (" (fixed-rate method) ".toList) s (fun _ rest =>
    greedySplit (" maturity of ".toList) rest (fun _ rest2 => some (maturityGroups rest2)))

/-- Matcher for the repurchase-agreement session pattern
`.+ \(Sales of JGSs under repurchase agreements\) /offered in the (.+)/.+`:
returns the captured session token (original case).  The greedy `(.+)`
extends to the last `/` that still leaves at least one character after it. -/
def matchSession (s : List Char) : Option (List Char) :=
  greedySplit (" (Sales of JGSs under repurchase agreements) /offered in the ".toList) s
    (fun _ rest =>
      greedySplit (['/']) rest (fun g z => if z.isEmpty then none else some g))

/-- The ordered table of literal search rules of `get_short_name`
(`OrderedDict` in the source; each pattern is a regex-escaped literal, matched
as a case-insensitive substring). -/
def searchRules : List (String × String) :=
  [("Outright purchases of Corporate Bonds", "Corporate Bonds"),
   ("Outright purchases of CP", "CP"),
   ("Outright purchases of T-Bills", "TB"),
   ("inflation-indexed bonds", "JGBs: Inflation Linked"),
   ("floating-rate bonds", "JGBs: Floating Rate"),
   ("US Dollar Funds-Supplying Operations against Pooled Collateral (Sales of JGSs under repurchase agreements)",
    "USD: JGS PC"),
   ("US Dollar Funds-Supplying Operations against Pooled Collateral", "USD: PC"),
   ("Funds-Supplying Operations against Pooled Collateral (at All Offices)",
    "Funds-Supplying Operations")]

/-- Build the canonical maturity-band name from the two captures, mirroring
the `group(2) == None` / `group(1) == None` branches of the source.  When both
captures are absent the source evaluates `out_txt + ">" + None + "y"`, which
raises `TypeError`; that crash is modelled as an error. -/
def maturityName (pre : String) (g : Option (List Char) × Option (List Char)) :
    Except String String :=
  match g.2, g.1 with
  | none, some a => .ok (pre ++ ">" ++ String.mk a ++ "y")
  | none, none => .error "TypeError: can only concatenate str"
  | some b, none => .ok (pre ++ "<" ++ String.mk b ++ "y")
  | some b, some a => .ok (pre ++ String.mk a ++ "-" ++ String.mk b ++ "y")

/-- Function `get_short_name` of `project.py`: replace a long BOJ instrument
description with its canonical short name.  The literal rules are tried in
table order; then the maturity pattern for the fixed-rate method, then for
the auction method; then the session-qualified repurchase pattern; otherwise
the source raises `ValueError("Imstrument not recognized: " + long_name)`. -/
def get_short_name (long_name : String) : Except String String :=
  match searchRules.find? (fun pr => containsCI pr.1 long_name) with
  | some pr => .ok pr.2
  | none =>
    match matchMaturityFixed long_name.toList with
    | some g => maturityName "JGBs: FR " g
    | none =>
      match matchMaturityAuction long_name.toList with
      | some g => maturityName "JGBs: " g
      | none =>
        match matchSession long_name.toList with
        | some g =>
          if String.mk g = "morning" then .ok "Sec. lending: am"
          else if String.mk g = "afternoon" then .ok "Sec. lending: pm"
          else .error "Expected morning / afternoon flag not found"
        | none => .error ("Imstrument not recognized: " ++ long_name)

/-- Decides whether any classification rule of `get_short_name` fires on
`s`: a literal substring rule, a maturity-band rule (fixed-rate or auction
method), or a session-qualified repurchase rule. -/
def matches_any_rule (s : String) : Bool :=
  (searchRules.any (fun pr => containsCI pr.1 s))
    || (matchMaturityFixed s.toList).isSome
    || (matchMaturityAuction s.toList).isSome
    || (matchSession s.toList).isSome

/-- Calendar date as Python's `datetime.date`: a (year, month, day) triple,
compared lexicographically. -/
structure PyDate where
  year : ℤ
  month : ℤ
  day : ℤ
deriving DecidableEq

/-- Python `date` comparison `a <= b` (calendar order = lexicographic order
on valid dates). -/
def pdLe (a b : PyDate) : Bool :=
  decide (a.year < b.year ∨ (a.year = b.year ∧
    (a.month < b.month ∨ (a.month = b.month ∧ a.day ≤ b.day))))

/-- Distinct-element scan with a seen-set accumulator. -/
def uniqueKeysAux {α : Type _} [DecidableEq α] : List α → List α → List α
  | _, [] => []
  | seen, k :: ks =>
    if k ∈ seen then uniqueKeysAux seen ks
    else k :: uniqueKeysAux (k :: seen) ks

/-- The distinct elements of `l`, first occurrence first.  This models the
group keys of a pandas `groupby` (pandas additionally emits the keys in
sorted order; none of the verified properties depends on row order, so the
first-occurrence order is kept). -/
def uniqueKeys {α : Type _} [DecidableEq α] (l : List α) : List α :=
  uniqueKeysAux [] l

/-- Stable-enough insertion step for `sortLe`. -/
def insertLe {α : Type _} (le : α → α → Bool) (x : α) : List α → List α
  | [] => [x]
  | y :: ys => if le x y then x :: y :: ys else y :: insertLe le x ys

/-- Insertion sort by a boolean comparison; models `DataFrame.sort_values`
(whose default quicksort fixes no order among equal keys either). -/
def sortLe {α : Type _} (le : α → α → Bool) : List α → List α
  | [] => []
  | x :: xs => insertLe le x (sortLe le xs)

/-- The `Transaction` class of `project_classes.py`: one instrument traded on
one day.  `Rate`, `SuccessfulBids`, `CompetitiveBids` and `AveSpread` start
as Python `None` and are set afterwards by the record builder. -/
structure Transaction where
  Instrument : String
  Currency : String
  Units : ℤ
  Rate : Option ℚ := none
  SuccessfulBids : Option ℤ := none
  CompetitiveBids : Option ℤ := none
  AveSpread : Option ℚ := none
deriving DecidableEq

/-- The `Operation` class of `project_classes.py`: one day's list of
transactions. -/
structure Operation where
  Date : PyDate
  Transactions : List Transaction := []
deriving DecidableEq

/-- Method `Operation.AddTransaction`: unconditionally appends a fresh `Transaction`
with the given instrument, currency and unit (all optional fields unset). -/
def Operation.AddTransaction (op : Operation) (instrument currency : String)
    (unit : ℤ) : Operation :=
  { op with Transactions := op.Transactions ++
      [{ Instrument := instrument, Currency := currency, Units := unit }] }

/-- Property `Operation.Instruments`: the instrument names of the transactions, in
list order. -/
def Operation.Instruments (op : Operation) : List String :=
  op.Transactions.map Transaction.Instrument

/-- Method `Operation.Transaction`: the first transaction with the given instrument
name, or `None`. -/
def Operation.Transaction (op : Operation) (instrument : String) :
    Option Transaction :=
  op.Transactions.find? (fun t => t.Instrument == instrument)

/-- Method `Operation.TransactionValue`: with an instrument name, the successful-bid
value `SuccessfulBids * Units / 1000` of the first matching transaction, or
`0.0` when no transaction matches; with `None`, the same value summed over
every transaction whose instrument starts with `"JGB"` (`Instrument[0:3]`).
A transaction reached with `SuccessfulBids = None` makes the Python
expression `None * units` raise `TypeError`; that crash is the error case. -/
def Operation.TransactionValue (op : Operation) (instrument : Option String) :
    Except String ℚ :=
  match instrument with
  | some inst =>
    match op.Transactions.find? (fun t => t.Instrument == inst) with
    | some t =>
      match t.SuccessfulBids with
      | some sb => .ok (((sb * t.Units : ℤ) : ℚ) / 1000)
      | none => .error "TypeError: unsupported operand type"
    | none => .ok 0
  | none =>
    op.Transactions.foldlM
      (fun total t =>
        if t.Instrument.take 3 == "JGB" then
          match t.SuccessfulBids with
          | some sb => .ok (total + ((sb * t.Units : ℤ) : ℚ) / 1000)
          | none => .error "TypeError: unsupported operand type"
        else .ok total)
      (0 : ℚ)

/-- Method `Operation.TransactionRate`: the stored `Rate` of the first matching
transaction (possibly Python `None`, modelled `none`), or `0.0` when the
instrument is absent that day. -/
def Operation.TransactionRate (op : Operation) (instrument : String) :
    Option ℚ :=
  match op.Transactions.find? (fun t => t.Instrument == instrument) with
  | some t => t.Rate
  | none => some 0

/-- A raw row of the daily-results web table after the column selection
`df_data[[0, 1, 2, 5]]` of `clean_up_data`: long instrument description,
competitive bids, successful bids and yield (each possibly `NaN`, modelled
`none`; the published bid volumes are integers). -/
structure RawRow where
  Instrument : String
  CompetitiveBids : Option ℤ
  SuccessfulBids : Option ℤ
  SuccessfulYield : Option ℚ
deriving DecidableEq

/-- A normalized row produced by `clean_up_data`: canonical instrument,
aggregated volumes and yield, plus the operation date. -/
structure CleanRow where
  Instrument : String
  CompetitiveBids : ℤ
  SuccessfulBids : ℤ
  SuccessfulYield : ℚ
  Date : PyDate
deriving DecidableEq

/-- The renaming loop of `clean_up_data`: replace each long instrument name
by `get_short_name` of it; the first unrecognized name aborts the call. -/
def classifyRows (rows : List RawRow) : Except String (List RawRow) :=
  rows.mapM (fun r => do
    let s ← get_short_name r.Instrument
    pure { r with Instrument := s })

/-- Step `df_data.fillna(0)` applied to one classified row: missing numeric
fields become `0`. -/
def fillRow (r : RawRow) : String × ℤ × ℤ × ℚ :=
  (r.Instrument, r.CompetitiveBids.getD 0, r.SuccessfulBids.getD 0,
   r.SuccessfulYield.getD 0)

/-- One aggregated group of `df_data.groupby("Instrument").sum()`: the row
for key `k`, with every numeric column — competitive bids, successful bids,
and the yield column alike — summed over the rows of the group, plus the
`Date` column added afterwards. -/
def groupRow (filled : List (String × ℤ × ℤ × ℚ)) (d : PyDate) (k : String) :
    CleanRow :=
  { Instrument := k
    CompetitiveBids := ((filled.filter (fun r => r.1 = k)).map (fun r => r.2.1)).sum
    SuccessfulBids := ((filled.filter (fun r => r.1 = k)).map (fun r => r.2.2.1)).sum
    SuccessfulYield := ((filled.filter (fun r => r.1 = k)).map (fun r => r.2.2.2)).sum
    Date := d }

/-- Step `df_data.groupby("Instrument").sum()` followed by adding the `Date`
column: one output row per distinct instrument. -/
def aggregateRows (filled : List (String × ℤ × ℤ × ℚ)) (d : PyDate) :
    List CleanRow :=
  (uniqueKeys (filled.map (fun r => r.1))).map (groupRow filled d)

/-- Function `clean_up_data` of `project.py`: classify each raw instrument name,
fill missing numerics with `0`, aggregate by instrument, attach the date. -/
def clean_up_data (rows : List RawRow) (d : PyDate) :
    Except String (List CleanRow) := do
  let named ← classifyRows rows
  pure (aggregateRows (named.map fillRow) d)

/-- One extracted fixed-rate annotation of `clean_up_notes`: a maturity
year count and the announced purchasing yield. -/
structure NoteRow where
  Maturity : ℤ
  Rate : ℚ
deriving DecidableEq

/-- The maturity-to-bucket mapping hard-coded in `add_operation` (and
repeated in `get_excel_data`): year counts 2, 5, 10, 20 map to the four
canonical fixed-rate bucket names; anything else has no bucket. -/
def maturity_bucket (m : ℤ) : Option String :=
  if m = 5 then some "JGBs: FR 3-5y"
  else if m = 2 then some "JGBs: FR 1-3y"
  else if m = 10 then some "JGBs: FR 5-10y"
  else if m = 20 then some "JGBs: FR 10-25y"
  else none

/-- The first loop of `add_operation`: one `AddTransaction` per normalized
row, with currency and unit scale derived from whether the canonical name
starts with `"USD"` (`Instrument[0:3]`), then the volumes and the yield
copied in (`int(...)` and `float(...)` are identities on the integer and
rational column values). -/
def baseOperation (curdate : PyDate) (df_data : List CleanRow) : Operation :=
  { Date := curdate
    Transactions := df_data.map (fun row =>
      let usd := row.Instrument.take 3 == "USD"
      { Instrument := row.Instrument
        Currency := if usd then "USD" else "JPY"
        Units := if usd then 1 else 100
        CompetitiveBids := some row.CompetitiveBids
        SuccessfulBids := some row.SuccessfulBids
        Rate := some row.SuccessfulYield }) }

/-- Set the `Rate` of the first transaction with the given instrument
(the mutation `newTrans.Rate = float(row["Rate"])` performed on the object
returned by `Operation.Transaction`). -/
def setRateFirst (instrument : String) (r : ℚ) :
    List Transaction → List Transaction
  | [] => []
  | t :: ts =>
    if t.Instrument == instrument then { t with Rate := some r } :: ts
    else t :: setRateFirst instrument r ts

/-- Mutation `setRateFirst` lifted to an `Operation`. -/
def setRate (op : Operation) (instrument : String) (r : ℚ) : Operation :=
  { op with Transactions := setRateFirst instrument r op.Transactions }

/-- One iteration of the notes loop of `add_operation`: map the annotation's
maturity to its bucket name and set the rate of the existing transaction for
that bucket; an unknown maturity, or a bucket with no transaction that day,
raises `ValueError("Unrecognized fixed rate operation maturity")` (the source
reuses the same message for both). -/
def noteStep (op : Operation) (row : NoteRow) : Except String Operation :=
  match maturity_bucket row.Maturity with
  | none => .error "Unrecognized fixed rate operation maturity"
  | some instrument =>
    match op.Transaction instrument with
    | none => .error "Unrecognized fixed rate operation maturity"
    | some _ => .ok (setRate op instrument row.Rate)

/-- Function `add_operation` of `project.py`: build the day's `Operation` from the
normalized rows, then, when fixed-rate annotations are supplied, fold the
notes loop over them. -/
def add_operation (curdate : PyDate) (df_data : List CleanRow)
    (df_notes : Option (List NoteRow)) : Except String Operation :=
  let new_op := baseOperation curdate df_data
  match df_notes with
  | none => .ok new_op
  | some notes => notes.foldlM noteStep new_op

/-- One serialized transaction of `save_to_json`: exactly the six fields the
source writes (`AveSpread` is not persisted); Python `None` serializes to
JSON `null`, modelled `none`. -/
structure TransJson where
  Instrument : String
  CompetitiveBids : Option ℤ
  SuccessfulBids : Option ℤ
  Rate : Option ℚ
  Currency : String
  Units : ℤ
deriving DecidableEq

/-- Insertion into a Python `dict` (in insertion-key order): an existing key
keeps its position and gets the new value, a fresh key is appended. -/
def dictInsert {β : Type _} (l : List (PyDate × β)) (k : PyDate) (v : β) :
    List (PyDate × β) :=
  if l.any (fun p => p.1 == k) then
    l.map (fun p => if p.1 == k then (k, v) else p)
  else l ++ [(k, v)]

/-- The per-transaction dictionary written by `save_to_json`: exactly the
six stored fields. -/
def encodeTrans (t : Transaction) : TransJson :=
  { Instrument := t.Instrument
    CompetitiveBids := t.CompetitiveBids
    SuccessfulBids := t.SuccessfulBids
    Rate := t.Rate
    Currency := t.Currency
    Units := t.Units }

/-- Function `save_to_json` of `project.py`: serialize the operation list into a
date-keyed dictionary of transaction lists.  The ISO `strftime`/`strptime`
pair and the JSON encode/decode are an external lossless bridge and are
modelled as the identity, so the dictionary is keyed by the date value
itself. -/
def save_to_json (operations : List Operation) : List (PyDate × List TransJson) :=
  operations.foldl
    (fun acc op => dictInsert acc op.Date (op.Transactions.map encodeTrans))
    []

/-- The per-transaction body of the `load_from_json` loop:
`CompetitiveBids` is copied verbatim (`None` survives), but
`SuccessfulBids` passes through `int(...)` and `Rate` through
`float(...)`, each of which raises `TypeError` on `None`; only `IOError` is
caught by the source, so those crashes escape the load. -/
def decodeTrans (t : TransJson) : Except String Transaction := do
  let sb ← match t.SuccessfulBids with
    | some n => Except.ok n
    | none => Except.error "TypeError: int() argument is None"
  let r ← match t.Rate with
    | some q => Except.ok q
    | none => Except.error "TypeError: float() argument is None"
  pure { Instrument := t.Instrument
         Currency := t.Currency
         Units := t.Units
         Rate := some r
         SuccessfulBids := some sb
         CompetitiveBids := t.CompetitiveBids
         AveSpread := none }

/-- The per-date body of the `load_from_json` loop: rebuild one
`Operation` from its key and transaction dictionaries. -/
def decodeOp (kv : PyDate × List TransJson) : Except String Operation := do
  let ts ← kv.2.mapM decodeTrans
  pure { Date := kv.1, Transactions := ts }

/-- Function `load_from_json` of `project.py`: rebuild the operation list from the
saved dictionary, in key (= insertion) order. -/
def load_from_json (j : List (PyDate × List TransJson)) :
    Except String (List Operation) :=
  j.mapM decodeOp

/-- The transaction `decodeTrans` successfully rebuilds: all six stored
fields restored, `AveSpread` (never persisted) left unset. -/
def reloadTrans (tj : TransJson) : Transaction :=
  { Instrument := tj.Instrument
    Currency := tj.Currency
    Units := tj.Units
    Rate := tj.Rate
    SuccessfulBids := tj.SuccessfulBids
    CompetitiveBids := tj.CompetitiveBids
    AveSpread := none }

/-- The six persisted fields of a transaction, used to state the round-trip
property exactly over the fields the persistence layer stores. -/
def transFields (t : Transaction) :
    String × Option ℤ × Option ℤ × Option ℚ × String × ℤ :=
  (t.Instrument, t.CompetitiveBids, t.SuccessfulBids, t.Rate, t.Currency, t.Units)

/-- The date and per-transaction persisted fields of an operation. -/
def opFields (op : Operation) :
    PyDate × List (String × Option ℤ × Option ℤ × Option ℚ × String × ℤ) :=
  (op.Date, op.Transactions.map transFields)

/-- A spreadsheet cell as delivered by `pd.read_excel` on the mixed-type
monthly release: a Python `int`, `float`, `str`, a datetime value, or an
empty cell (`NaN`). -/
inductive Cell
  | int (n : ℤ)
  | float (q : ℚ)
  | str (s : String)
  | date (d : PyDate)
  | blank
deriving DecidableEq

/-- The raw monthly sheet: its column count and its rows of cells. -/
structure Sheet where
  ncols : ℕ
  rows : List (List Cell)
deriving DecidableEq

/-- Test `isinstance(cell, int)` on a spreadsheet cell. -/
def isIntCell : Cell → Bool
  | .int _ => true
  | _ => false

/-- Python `str(cell)` as far as the title scan needs it: only string cells
can contain the searched title phrase, the other renderings never do. -/
def pyStr : Cell → String
  | .int n => toString n
  | .float q => toString q
  | .str s => s
  | .date _ => "Timestamp"
  | .blank => "nan"

/-- Numeric value of a cell for aggregation; non-numeric cells count as
missing (`NaN`) and are later zeroed by `fillna(0)`. -/
def cellNum : Cell → Option ℚ
  | .int n => some (n : ℚ)
  | .float q => some q
  | _ => none

/-- Proleptic-Gregorian date of a day count since 1970-01-01 (the standard
civil-from-days algorithm); models `datetime.fromtimestamp(secs).date()` on
whole days. -/
def civilFromDays (z0 : ℤ) : PyDate :=
  let z := z0 + 719468
  let era := Int.fdiv z 146097
  let doe := z - era * 146097
  let yoe := Int.fdiv (doe - Int.fdiv doe 1460 + Int.fdiv doe 36524 - Int.fdiv doe 146096) 365
  let y := yoe + era * 400
  let doy := doe - (365 * yoe + Int.fdiv yoe 4 - Int.fdiv yoe 100)
  let mp := Int.fdiv (5 * doy + 2) 153
  let d := doy - Int.fdiv (153 * mp + 2) 5 + 1
  let m := mp + (if mp < 10 then 3 else -9)
  ⟨y + (if m ≤ 2 then 1 else 0), m, d⟩

/-- The date-cell conversion of `get_excel_data`: a datetime cell is taken as
is, a numeric cell is an Excel day serial converted via
`fromtimestamp((v - 25569) * 86400).date()`; anything else makes that
arithmetic raise `TypeError`. -/
def excelSerialToDate : Cell → Except String PyDate
  | .date d => .ok d
  | .int n => .ok (civilFromDays (n - 25569))
  | .float q => .ok (civilFromDays (Int.floor (q - 25569)))
  | _ => .error "TypeError: unsupported operand type for date cell"

/-- The mutable state of the table-boundary scan of `get_excel_data`:
the pending block start (`0` meaning "not inside a block" — note the Python
`if not start` truthiness test), the row index of the last title containing
`"(fixed-rate method)"`, and the closed `(start, stop)` blocks. -/
structure ScanState where
  start : ℕ := 0
  FRM : ℕ := 0
  starts : List (ℕ × ℕ) := []
deriving DecidableEq

/-- One iteration of the `df.iterrows()` boundary scan: remember a
fixed-rate title row, open a block at the first integer in column 4, close
the block (recording `stop = index - 1`) at the first non-integer after. -/
def scanStep (st : ScanState) (ir : ℕ × List Cell) : ScanState :=
  let st1 :=
    if containsCI "(fixed-rate method)" (pyStr (ir.2.getD 0 .blank)) then
      { st with FRM := ir.1 }
    else st
  let st2 :=
    if st1.start == 0 && isIntCell (ir.2.getD 4 .blank) then
      { st1 with start := ir.1 }
    else st1
  if st2.start != 0 && !(isIntCell (ir.2.getD 4 .blank)) then
    { st2 with starts := st2.starts ++ [(st2.start, ir.1 - 1)], start := 0 }
  else st2

/-- The full boundary scan over the sheet's rows. -/
def scanBlocks (rows : List (List Cell)) : ScanState :=
  rows.enum.foldl scanStep {}

/-- Slice `df.iloc[a:b]` on the rows: rows `a` to `b - 1` (the source stored
`stop = index - 1` and slices with an exclusive bound, so the last integer
row of each block is dropped). -/
def sliceRows (rows : List (List Cell)) (a b : ℕ) : List (List Cell) :=
  (rows.drop a).take (b - a)

/-- Column indices `[0, 4, 5, 8, 11]` chosen for the 13-column layout. -/
def colIdx13 : List ℕ := [0, 4, 5, 8, 11]

/-- Column indices `[0, 3, 4, 7, 10]` chosen for the 11-column layout. -/
def colIdx11 : List ℕ := [0, 3, 4, 7, 10]

/-- Matcher for `^More than ([0-9]?[0-9]) years?` (`re.match`,
`re.IGNORECASE`): anchored at the start, captures the digits. -/
def matchMoreThanAnchored (s : String) : Option (List Char) :=
  match matchLitCI ("More than ".toList) s.toList with
  | none => none
  | some r => matchDigitsThen (fun t => startsWithCI (" year".toList) t) r

/-- Matcher for `up to ([0-9]?[0-9]) years?` anchored at the head (no
closing parenthesis required, unlike the daily-page pattern). -/
def matchUpToLoose (s : List Char) : Option (List Char) :=
  match matchLitCI ("up to ".toList) s with
  | none => none
  | some r => matchDigitsThen (fun t => startsWithCI (" year".toList) t) r

/-- Matcher for `(?:.+)?up to ([0-9]?[0-9]) years?` (`re.match`): the
optional greedy gap lets the phrase sit anywhere, latest occurrence won. -/
def findUpTo (s : String) : Option (List Char) :=
  findLastMatch matchUpToLoose s.toList

/-- The maturity-band renaming of the monthly sheet's instrument column:
`More than X years` / `up to Y years` become `JGBs: X-Yy`, `JGBs: >Xy` or
`JGBs: <Yy`; when neither phrase matches, the source dereferences
`less_than.group(1)` on `None` and crashes with `AttributeError`. -/
def renameExcel (s : String) : Except String String :=
  match matchMoreThanAnchored s, findUpTo s with
  | none, some b => .ok ("JGBs: <" ++ String.mk b ++ "y")
  | none, none => .error "AttributeError: NoneType object has no attribute group"
  | some a, none => .ok ("JGBs: >" ++ String.mk a ++ "y")
  | some a, some b => .ok ("JGBs: " ++ String.mk a ++ "-" ++ String.mk b ++ "y")

/-- A row of the combined monthly output: the yield column keeps its cell
kind — a summed float for the auction table, the captured rate text for the
fixed-rate table. -/
structure XRow where
  Date : PyDate
  Instrument : String
  CompetitiveBids : ℚ
  SuccessfulBids : ℚ
  SuccessfulYield : Cell
deriving DecidableEq

/-- Date conversion, instrument renaming and numeric extraction for one row
of the primary (auction-method) block, at the given column indices. -/
def primaryConvertRow (idx : List ℕ) (row : List Cell) :
    Except String (PyDate × String × ℚ × ℚ × ℚ) := do
  let d ← excelSerialToDate (row.getD (idx.getD 0 0) .blank)
  let iname ← match row.getD (idx.getD 4 0) .blank with
    | .str s => Except.ok s
    | _ => Except.error "TypeError: expected string in instrument column"
  let newName ← renameExcel iname
  pure (d, newName,
        (cellNum (row.getD (idx.getD 1 0) .blank)).getD 0,
        (cellNum (row.getD (idx.getD 2 0) .blank)).getD 0,
        (cellNum (row.getD (idx.getD 3 0) .blank)).getD 0)

/-- Step `groupby(["Date", "Instrument"]).sum()` over the converted primary rows:
one output row per (date, instrument), all three numeric columns summed. -/
def primaryAgg (rows : List (PyDate × String × ℚ × ℚ × ℚ)) : List XRow :=
  (uniqueKeys (rows.map (fun r => (r.1, r.2.1)))).map (fun k =>
    { Date := k.1
      Instrument := k.2
      CompetitiveBids :=
        ((rows.filter (fun r => (r.1, r.2.1) = k)).map (fun r => r.2.2.1)).sum
      SuccessfulBids :=
        ((rows.filter (fun r => (r.1, r.2.1) = k)).map (fun r => r.2.2.2.1)).sum
      SuccessfulYield :=
        .float ((rows.filter (fun r => (r.1, r.2.1) = k)).map (fun r => r.2.2.2.2)).sum })

/-- The primary-table pipeline of `get_excel_data`: take the first scanned
block (`starts[0]` raises `IndexError` when no block was found), pick the
column layout from the column count (any other count raises
`ValueError("Shape not recognized")`), convert each row, aggregate. -/
def processPrimary (sh : Sheet) (blocks : List (ℕ × ℕ)) :
    Except String (List XRow) :=
  match blocks with
  | [] => .error "IndexError: list index out of range"
  | (a, b) :: _ => do
    let idx ← if sh.ncols = 13 then Except.ok colIdx13
              else if sh.ncols = 11 then Except.ok colIdx11
              else Except.error "Shape not recognized"
    let sel ← (sliceRows sh.rows a b).mapM (primaryConvertRow idx)
    pure (primaryAgg sel)

/-- Matcher for the fixed-rate annotation pattern
`^([0-9]?[0-9])-year JGB .+ : ([0-9].[0-9][0-9][0-9])%$` (`re.match`,
`re.IGNORECASE`; the second group's `.` is an unescaped any-character):
returns (maturity digits, captured five-character rate text). -/
def matchNotesInstr (s : String) : Option (List Char × List Char) :=
  match matchDigitsThen (fun t => startsWithCI ("-year JGB ".toList) t) s.toList with
  | none => none
  | some ds =>
    match matchLitCI ("-year JGB ".toList) (s.toList.drop ds.length) with
    | none => none
    | some r1 =>
      match r1.reverse with
      | '%' :: g5 :: g4 :: g3 :: g2 :: g1 :: ' ' :: ':' :: ' ' :: midrev =>
        if g1.isDigit && g3.isDigit && g4.isDigit && g5.isDigit && !midrev.isEmpty then
          some (ds, [g1, g2, g3, g4, g5])
        else none
      | _ => none

/-- Numeric value of a captured digit string. -/
def digitsToInt (ds : List Char) : ℤ :=
  ds.foldl (fun acc c => acc * 10 + ((c.toNat : ℤ) - 48)) 0

/-- A converted row of the secondary (fixed-rate) block: the yield column now
holds the captured rate text. -/
structure NotesConv where
  Date : PyDate
  Instrument : String
  CompetitiveBids : ℚ
  SuccessfulBids : ℚ
  SuccessfulYield : String
deriving DecidableEq

/-- Conversion of one secondary-block row at the hard-coded columns
`[0, 4, 5, 8, 12]`: parse the annotation, map the maturity to its fixed-rate
bucket (unknown maturities raise), store the captured rate text as the
yield. -/
def notesConvertRow (row : List Cell) : Except String NotesConv := do
  let d ← excelSerialToDate (row.getD 0 .blank)
  let iname ← match row.getD 12 .blank with
    | .str s => Except.ok s
    | _ => Except.error "TypeError: expected string in instrument column"
  match matchNotesInstr iname with
  | none => .error "AttributeError: NoneType object has no attribute group"
  | some dsr5 =>
    match maturity_bucket (digitsToInt dsr5.1) with
    | none => .error "Unrecognized fixed rate operation maturity"
    | some instrument =>
      pure { Date := d
             Instrument := instrument
             CompetitiveBids := (cellNum (row.getD 4 .blank)).getD 0
             SuccessfulBids := (cellNum (row.getD 5 .blank)).getD 0
             SuccessfulYield := String.mk dsr5.2 }

/-- Step `groupby(["Date", "Successful Yield", "Instrument"]).sum()` over the
converted secondary rows: the yield text is part of the group key, so
distinct yields stay distinct rows and only the bid volumes are summed. -/
def notesAgg (rows : List NotesConv) : List XRow :=
  (uniqueKeys (rows.map (fun r => (r.Date, r.SuccessfulYield, r.Instrument)))).map
    (fun k =>
      { Date := k.1
        Instrument := k.2.2
        CompetitiveBids :=
          ((rows.filter (fun r => (r.Date, r.SuccessfulYield, r.Instrument) = k)).map
            (fun r => r.CompetitiveBids)).sum
        SuccessfulBids :=
          ((rows.filter (fun r => (r.Date, r.SuccessfulYield, r.Instrument) = k)).map
            (fun r => r.SuccessfulBids)).sum
        SuccessfulYield := .str k.2.1 })

/-- The secondary-table pipeline of `get_excel_data`: the hard-coded column
list `[0, 4, 5, 8, 12]` is out of bounds on an 11-column sheet
(`IndexError`); otherwise convert and aggregate the block's rows. -/
def processNotes (sh : Sheet) (a b : ℕ) : Except String (List XRow) :=
  if sh.ncols ≤ 12 then .error "IndexError: positional indexer out of bounds"
  else do
    let conv ← (sliceRows sh.rows a b).mapM notesConvertRow
    pure (notesAgg conv)

/-- Function `get_excel_data` of `project.py` (after the fetch): scan the block
boundaries, process the primary table, then — only when a second block
exists and its start sits exactly nine rows below the last
`"(fixed-rate method)"` title row — process the secondary table, otherwise
treat it as absent; concatenate and sort by date. -/
def get_excel_data (sh : Sheet) : Except String (List XRow) :=
  (processPrimary sh (scanBlocks sh.rows).starts).bind (fun primary =>
    (if (scanBlocks sh.rows).starts.length < 2 then Except.ok none
     else
       if (((scanBlocks sh.rows).starts.getD 1 (0, 0)).1 : ℤ)
            - ((scanBlocks sh.rows).FRM : ℤ) ≠ 9 then Except.ok none
       else
         (processNotes sh ((scanBlocks sh.rows).starts.getD 1 (0, 0)).1
             ((scanBlocks sh.rows).starts.getD 1 (0, 0)).2).map some).bind
      (fun notes? =>
        Except.ok (sortLe (fun x y => pdLe x.Date y.Date)
          (match notes? with
           | some ns => primary ++ ns
           | none => primary))))

/-- The hard-coded JGB-family filter list that the token `"All"` expands
to in `get_chart_data`. -/
def jgb_filter : List String :=
  ["JGBs: FR 5-10y", "JGBs: FR 1-3y", "JGBs: FR 3-5y", "JGBs: FR 10-25y",
   "JGBs: <1y", "JGBs: 1-3y", "JGBs: 3-5y", "JGBs: 5-10y", "JGBs: 10-25y",
   "JGBs: >25y", "JGBs: Inflation Linked"]

/-- The instrument filter used by `get_chart_data`: with `"All"` requested,
the union (`set | set` in the source — only membership matters downstream)
of the JGB family list and the requested instruments; otherwise the request
itself. -/
def inst_filter_of (instruments : List String) : List String :=
  if "All" ∈ instruments then List.union jgb_filter instruments else instruments

/-- The chart dataframe: the date axis plus one value column per requested
instrument (`none` models a Python `None`/`NaN` cell). -/
structure Chart where
  Dates : List PyDate
  Columns : List (String × List (Option ℚ))
deriving DecidableEq

/-- Conversion `date(x.year, x.month, 1)`: collapse a date to its month start. -/
def monthStart (d : PyDate) : PyDate := ⟨d.year, d.month, 1⟩

/-- pandas column mean (NaN-skipping; all-NaN gives NaN). -/
def meanOpt (l : List (Option ℚ)) : Option ℚ :=
  let xs := l.filterMap id
  if xs.isEmpty then none else some (xs.sum / (xs.length : ℚ))

/-- pandas column sum (NaN counts as zero). -/
def sumOpt (l : List (Option ℚ)) : Option ℚ :=
  some ((l.map (fun x => x.getD 0)).sum)

/-- The `monthly` branch of `get_chart_data`: map dates to month starts,
group by month (pandas emits the group keys sorted), mean for rates, sum
for volumes. -/
def monthlyAgg (rate : Bool) (dates : List PyDate)
    (cols : List (String × List (Option ℚ))) : Chart :=
  let mdates := dates.map monthStart
  let keys := sortLe pdLe (uniqueKeys mdates)
  { Dates := keys
    Columns := cols.map (fun c =>
      (c.1, keys.map (fun k =>
        let sel := ((mdates.zip c.2).filter (fun p => p.1 == k)).map (fun p => p.2)
        if rate then meanOpt sel else sumOpt sel))) }

/-- The operation filter of `get_chart_data`: keep the operations inside the
requested date window that hold at least one instrument of the filter list. -/
def chart_ops (operations : List Operation) (instruments : List String)
    (start_date end_date : PyDate) : List Operation :=
  operations.filter (fun op =>
    pdLe start_date op.Date && pdLe op.Date end_date &&
      op.Instruments.any (fun i => decide (i ∈ inst_filter_of instruments)))

/-- One value column of `get_chart_data`: rates via `TransactionRate`, or
volumes via `TransactionValue` (`"All"` meaning the JGB aggregate). -/
def chart_values (ops : List Operation) (rate : Bool) (inst : String) :
    Except String (List (Option ℚ)) :=
  if rate then Except.ok (ops.map (fun op => op.TransactionRate inst))
  else if inst = "All" then
    (ops.mapM (fun (op : Operation) => op.TransactionValue none)).map
      (fun l => l.map some)
  else
    (ops.mapM (fun (op : Operation) => op.TransactionValue (some inst))).map
      (fun l => l.map some)

/-- Function `get_chart_data` of `project.py`: expand `"All"` (forcing the rate flag
off), keep the in-window operations holding at least one requested
instrument, take their dates as the axis, build one column per requested
instrument, and optionally aggregate by month. -/
def get_chart_data (operations : List Operation) (instruments : List String)
    (start_date end_date : PyDate) (rate monthly : Bool) :
    Except String Chart :=
  (instruments.mapM (chart_values (chart_ops operations instruments start_date end_date)
      (if "All" ∈ instruments then false else rate))).bind
    (fun ops_values =>
      if monthly then
        .ok (monthlyAgg (if "All" ∈ instruments then false else rate)
          ((chart_ops operations instruments start_date end_date).map Operation.Date)
          (instruments.zip ops_values))
      else
        .ok { Dates := (chart_ops operations instruments start_date end_date).map
                Operation.Date
              Columns := instruments.zip ops_values })

/-! ### Concrete fixtures used in the claim theorems -/

/-- A sample date. -/
def d2023 : PyDate := ⟨2023, 1, 10⟩

/-- An auction-method long description classifying to `"JGBs: 5-10y"`. -/
def sAuction510 : String :=
  "Outright purchases of JGBs with maturity of more than 5 years) up to 10 years)"

/-- A transaction whose optional `Rate` was never set (as for an
auction-method instrument whose yield column was missing). -/
def trNoRate : Transaction :=
  { Instrument := "JGBs: 5-10y", Currency := "JPY", Units := 100,
    Rate := none, SuccessfulBids := some 200, CompetitiveBids := some 300 }

/-- A one-operation collection containing `trNoRate`. -/
def opNoRate : Operation := { Date := d2023, Transactions := [trNoRate] }

/-- The transaction of the spec's `TransactionValue` scenario:
successful bids 200 at unit scale 100. -/
def trScenario : Transaction :=
  { Instrument := "JGBs: 5-10y", Currency := "JPY", Units := 100,
    Rate := some (1 / 4), SuccessfulBids := some 200, CompetitiveBids := some 300 }

/-- The one-transaction operation of the spec's `TransactionValue`
scenario. -/
def opScenario : Operation := { Date := d2023, Transactions := [trScenario] }

/-- A non-JGB transaction (commercial paper). -/
def trOther : Transaction :=
  { Instrument := "CP", Currency := "JPY", Units := 100,
    Rate := some 0, SuccessfulBids := some 10, CompetitiveBids := some 10 }

/-- A second fixture operation on the next day holding no JGB-family
instrument. -/
def opOther : Operation :=
  { Date := ⟨2023, 1, 11⟩, Transactions := [trOther] }

/-- First of two raw daily rows classifying to the same canonical
instrument: competitive bids 10, successful bids 100, yield 0.5. -/
def rawRow1 : RawRow := ⟨sAuction510, some 10, some 100, some (1 / 2)⟩

/-- Second raw daily row on the same instrument: competitive bids 20,
successful bids 50, yield 0.3. -/
def rawRow2 : RawRow := ⟨sAuction510, some 20, some 50, some (3 / 10)⟩

/-- The single normalized row produced from `rawRow1` and `rawRow2`: bids
summed to 30 and 150, and the yield column summed to `0.5 + 0.3` (written
unreduced, as the groupby computes it). -/
def cexCleanRow : CleanRow :=
  { Instrument := "JGBs: 5-10y", CompetitiveBids := 30, SuccessfulBids := 150,
    SuccessfulYield := 1 / 2 + (3 / 10 + 0), Date := d2023 }

/-- A normalized fixed-rate row for the builder fixtures. -/
def frCleanRow : CleanRow :=
  { Instrument := "JGBs: FR 5-10y", CompetitiveBids := 0, SuccessfulBids := 500,
    SuccessfulYield := 0, Date := d2023 }

/-- A fixed-rate annotation with maturity 10. -/
def frNote : NoteRow := { Maturity := 10, Rate := 1 / 4 }

/-- A 13-column monthly sheet whose boundary scan yields exactly one data
block (title row, two integer rows, footer row) and no fixed-rate title. -/
def oneBlockSheet : Sheet :=
  { ncols := 13
    rows :=
      [[Cell.str "title", Cell.blank, Cell.blank, Cell.blank, Cell.blank,
        Cell.blank, Cell.blank, Cell.blank, Cell.blank, Cell.blank, Cell.blank,
        Cell.blank, Cell.blank],
       [Cell.int 45000, Cell.blank, Cell.blank, Cell.blank, Cell.int 10,
        Cell.int 20, Cell.blank, Cell.blank, Cell.float (1 / 10), Cell.blank,
        Cell.blank, Cell.str "More than 5 years up to 10 years", Cell.blank],
       [Cell.int 45001, Cell.blank, Cell.blank, Cell.blank, Cell.int 11,
        Cell.int 21, Cell.blank, Cell.blank, Cell.float (1 / 5), Cell.blank,
        Cell.blank, Cell.str "More than 1 year up to 3 years", Cell.blank],
       [Cell.str "footer", Cell.blank, Cell.blank, Cell.blank, Cell.blank,
        Cell.blank, Cell.blank, Cell.blank, Cell.blank, Cell.blank, Cell.blank,
        Cell.blank, Cell.blank]] }

/-- The chart produced by the daily query of the C10 witness (the cell value
`200 * 100 / 1000` is written unreduced, as the query computes it). -/
def chartW : Chart :=
  { Dates := [d2023]
    Columns := [("JGBs: 5-10y", [some (((200 * 100 : ℤ) : ℚ) / 1000)])] }

/-! ### Helper lemmas -/

theorem mem_uniqueKeysAux {α : Type _} [DecidableEq α] (l : List α) :
    ∀ (seen : List α) (x : α), x ∈ uniqueKeysAux seen l → x ∈ l ∧ x ∉ seen := by
  induction l with
  | nil =>
    intro seen x hx
    rw [uniqueKeysAux] at hx
    exact absurd hx (List.not_mem_nil x)
  | cons k ks ih =>
    intro seen x hx
    rw [uniqueKeysAux] at hx
    by_cases hs : k ∈ seen
    · rw [if_pos hs] at hx
      obtain ⟨h1, h2⟩ := ih seen x hx
      exact ⟨List.mem_cons_of_mem k h1, h2⟩
    · rw [if_neg hs] at hx
      rcases List.mem_cons.mp hx with h1 | h2
      · exact ⟨h1 ▸ List.mem_cons_self k ks, h1 ▸ hs⟩
      · obtain ⟨h1, h3⟩ := ih (k :: seen) x h2
        exact ⟨List.mem_cons_of_mem k h1,
          fun hc => h3 (List.mem_cons_of_mem k hc)⟩

theorem uniqueKeysAux_nodup {α : Type _} [DecidableEq α] (l : List α) :
    ∀ seen : List α, (uniqueKeysAux seen l).Nodup := by
  induction l with
  | nil =>
    intro seen
    rw [uniqueKeysAux]
    exact List.nodup_nil
  | cons k ks ih =>
    intro seen
    rw [uniqueKeysAux]
    by_cases hs : k ∈ seen
    · rw [if_pos hs]
      exact ih seen
    · rw [if_neg hs]
      refine List.nodup_cons.mpr ⟨?_, ih (k :: seen)⟩
      intro hk
      exact (mem_uniqueKeysAux ks (k :: seen) k hk).2 (List.mem_cons_self k seen)

theorem uniqueKeys_nodup {α : Type _} [DecidableEq α] (l : List α) :
    (uniqueKeys l).Nodup :=
  uniqueKeysAux_nodup l []

theorem instrument_find?_isSome_iff (l : List Transaction) (i : String) :
    (l.find? (fun t => t.Instrument == i)).isSome = true ↔
      i ∈ l.map Transaction.Instrument := by
  induction l with
  | nil => simp
  | cons t ts ih =>
    by_cases h : t.Instrument = i
    · simp [List.find?_cons, h]
    · have hb : (t.Instrument == i) = false := by simp [h]
      rw [List.find?_cons, hb]
      simp only [List.map_cons, List.mem_cons]
      rw [ih]
      constructor
      · exact Or.inr
      · rintro (h1 | h2)
        · exact absurd h1.symm h
        · exact h2

theorem setRateFirst_map_instrument (i : String) (r : ℚ) (l : List Transaction) :
    (setRateFirst i r l).map Transaction.Instrument = l.map Transaction.Instrument := by
  induction l with
  | nil => rfl
  | cons t ts ih =>
    rw [setRateFirst]
    by_cases h : (t.Instrument == i) = true
    · simp [h]
    · simp only [Bool.not_eq_true] at h
      simp [h, ih]

theorem find?_setRateFirst_self (i : String) (r : ℚ) (l : List Transaction) :
    (setRateFirst i r l).find? (fun t => t.Instrument == i)
      = (l.find? (fun t => t.Instrument == i)).map
          (fun t => { t with Rate := some r }) := by
  induction l with
  | nil => rfl
  | cons t ts ih =>
    by_cases h : (t.Instrument == i) = true
    · simp [setRateFirst, List.find?_cons, h]
    · simp only [Bool.not_eq_true] at h
      simp [setRateFirst, List.find?_cons, h, ih]

theorem mapM_ok_of_forall {α β : Type _} (f : α → Except String β) (g : α → β)
    (l : List α) (h : ∀ a ∈ l, f a = .ok (g a)) :
    l.mapM f = .ok (l.map g) := by
  induction l with
  | nil => rfl
  | cons a as ih =>
    rw [List.mapM_cons, h a (List.mem_cons_self a as),
        ih (fun x hx => h x (List.mem_cons_of_mem a hx))]
    rfl

theorem foldl_dictInsert_fresh (ops : List Operation) :
    ∀ (acc : List (PyDate × List TransJson)),
      (ops.map Operation.Date).Nodup →
      (∀ op ∈ ops, ∀ p ∈ acc, p.1 ≠ op.Date) →
      ops.foldl (fun acc op => dictInsert acc op.Date (op.Transactions.map encodeTrans)) acc
        = acc ++ ops.map (fun op => (op.Date, op.Transactions.map encodeTrans)) := by
  induction ops with
  | nil => intro acc _ _; simp
  | cons op rest ih =>
    intro acc hnd hfresh
    rw [List.map_cons, List.nodup_cons] at hnd
    rw [List.foldl_cons]
    have hany : acc.any (fun p => p.1 == op.Date) = false := by
      rw [List.any_eq_false]
      intro p hp
      simpa using hfresh op (List.mem_cons_self _ _) p hp
    have hstep : dictInsert acc op.Date (op.Transactions.map encodeTrans)
        = acc ++ [(op.Date, op.Transactions.map encodeTrans)] := by
      simp [dictInsert, hany]
    rw [hstep, ih (acc ++ [(op.Date, op.Transactions.map encodeTrans)]) hnd.2 ?_]
    · simp
    · intro o ho p hp
      rcases List.mem_append.mp hp with hp1 | hp2
      · exact hfresh o (List.mem_cons_of_mem _ ho) p hp1
      · have hpd : p.1 = op.Date := by
          rcases List.mem_singleton.mp hp2 with rfl
          rfl
        rw [hpd]
        intro hcontra
        exact hnd.1 (hcontra ▸ List.mem_map_of_mem Operation.Date ho)

theorem decodeTrans_ok (tj : TransJson) (h1 : tj.SuccessfulBids.isSome = true)
    (h2 : tj.Rate.isSome = true) : decodeTrans tj = .ok (reloadTrans tj) := by
  obtain ⟨sb, hsb⟩ := Option.isSome_iff_exists.mp h1
  obtain ⟨r, hr⟩ := Option.isSome_iff_exists.mp h2
  simp only [decodeTrans, reloadTrans, hsb, hr]
  rfl

theorem decodeOp_ok (kv : PyDate × List TransJson)
    (h : ∀ tj ∈ kv.2, tj.SuccessfulBids.isSome = true ∧ tj.Rate.isSome = true) :
    decodeOp kv = .ok { Date := kv.1, Transactions := kv.2.map reloadTrans } := by
  unfold decodeOp
  rw [mapM_ok_of_forall decodeTrans reloadTrans kv.2
    (fun tj htj => decodeTrans_ok tj (h tj htj).1 (h tj htj).2)]
  rfl

/-! ### C1 — persistence round trip -/

/-- C1, counterexample: for a collection whose single transaction has an
absent `Rate`, loading the saved collection does not return the original —
`load_from_json` crashes with the `TypeError` of `float(None)`. -/
theorem c1_round_trip_counterexample :
    (load_from_json (save_to_json [opNoRate])).map (fun l => l.map opFields)
      ≠ .ok ([opNoRate].map opFields) := by decide

/-- C1, amended: for every operation collection with pairwise-distinct dates
all of whose transactions carry a present successful-bid volume and a present
rate, loading the saved collection returns an operation collection equal to
the original in every persisted transaction field (instrument, competitive
bids, successful bids, rate, currency, units) and every operation date.
(Absent competitive bids survive the round trip; an absent successful-bid
volume or rate crashes the load instead.) -/
theorem c1_round_trip_amended (ops : List Operation)
    (hnd : (ops.map Operation.Date).Nodup)
    (hp : ∀ op ∈ ops, ∀ t ∈ op.Transactions,
      t.SuccessfulBids.isSome = true ∧ t.Rate.isSome = true) :
    (load_from_json (save_to_json ops)).map (fun l => l.map opFields)
      = .ok (ops.map opFields) := by
  have hsave : save_to_json ops
      = ops.map (fun op => (op.Date, op.Transactions.map encodeTrans)) := by
    have h0 := foldl_dictInsert_fresh ops [] hnd
      (by intro o _ p hp2; exact absurd hp2 (List.not_mem_nil p))
    simpa [save_to_json] using h0
  rw [hsave]
  unfold load_from_json
  rw [mapM_ok_of_forall decodeOp
    (fun kv => { Date := kv.1, Transactions := kv.2.map reloadTrans })
    (ops.map (fun op => (op.Date, op.Transactions.map encodeTrans))) ?_]
  · simp only [Except.map, List.map_map]
    congr 1
    apply List.map_congr_left
    intro op _
    show opFields _ = opFields op
    unfold opFields
    refine congrArg (Prod.mk op.Date) ?_
    simp only [Function.comp]
    rw [List.map_map, List.map_map]
    apply List.map_congr_left
    intro t _
    rfl
  · intro kv hkv
    rcases List.mem_map.mp hkv with ⟨op, hop, rfl⟩
    apply decodeOp_ok
    intro tj htj
    rcases List.mem_map.mp htj with ⟨t, ht, rfl⟩
    exact ⟨(hp op hop t ht).1, (hp op hop t ht).2⟩

/-- C1, witness for the amended theorem: a concrete two-operation collection
(with an absent competitive-bid volume in one transaction) round-trips. -/
theorem c1_round_trip_witness :
    (load_from_json (save_to_json [opScenario, opOther])).map (fun l => l.map opFields)
      = .ok ([opScenario, opOther].map opFields) :=
  c1_round_trip_amended [opScenario, opOther] (by decide) (by decide)

/-! ### C2 — unmatched instrument names are a hard error -/

/-- C2: for every raw description on which no classification rule fires (no
literal substring rule, no fixed-rate or auction maturity-band rule, no
session-qualified rule), `get_short_name` fails with the `ValueError` whose
message names the offending string — in particular it never returns a
category, empty or otherwise. -/
theorem c2_unmatched_is_error (s : String) (h : matches_any_rule s = false) :
    get_short_name s = .error ("Imstrument not recognized: " ++ s) := by
  unfold matches_any_rule at h
  simp only [Bool.or_eq_false_iff] at h
  obtain ⟨⟨⟨h1, h2⟩, h3⟩, h4⟩ := h
  have hfind : searchRules.find? (fun pr => containsCI pr.1 s) = none := by
    rw [List.find?_eq_none]
    intro x hx
    exact (List.any_eq_false.mp h1) x hx
  cases hfx : matchMaturityFixed s.toList with
  | some g => rw [hfx] at h2; simp at h2
  | none =>
  cases hau : matchMaturityAuction s.toList with
  | some g => rw [hau] at h3; simp at h3
  | none =>
  cases hse : matchSession s.toList with
  | some g => rw [hse] at h4; simp at h4
  | none =>
    simp only [String.toList] at hfx hau hse
    simp [get_short_name, String.toList, hfind, hfx, hau, hse]

/-- C2, witness: a concrete description matching no rule classifies to the
identifying error. -/
theorem c2_unmatched_witness :
    matches_any_rule "Purchases of Japanese corporate equity" = false ∧
    get_short_name "Purchases of Japanese corporate equity"
      = .error ("Imstrument not recognized: " ++ "Purchases of Japanese corporate equity") :=
  ⟨by decide, c2_unmatched_is_error "Purchases of Japanese corporate equity" (by decide)⟩

/-! ### C4 — concrete classifier behaviour -/

/-- C4: `"Outright purchases of CP"` classifies to `"CP"`; the auction-method
maturity phrase `more than 5 years) up to 10 years)` gives `"JGBs: 5-10y"`;
the same phrase wrapped in `(fixed-rate method)` gives `"JGBs: FR 5-10y"`;
a repurchase description offered in the morning gives `"Sec. lending: am"`
and in the afternoon `"Sec. lending: pm"`; and on any description where only
the session rule fires, a session token other than `morning`/`afternoon`
makes classification fail with the hard
`ValueError("Expected morning / afternoon flag not found")`. -/
theorem c4_classifier_concrete :
    get_short_name "Outright purchases of CP" = .ok "CP"
    ∧ get_short_name sAuction510 = .ok "JGBs: 5-10y"
    ∧ get_short_name
        "Outright purchases of JGBs (fixed-rate method) with maturity of more than 5 years) up to 10 years)"
        = .ok "JGBs: FR 5-10y"
    ∧ get_short_name
        "Securities lending (Sales of JGSs under repurchase agreements) /offered in the morning/ (note)"
        = .ok "Sec. lending: am"
    ∧ get_short_name
        "Securities lending (Sales of JGSs under repurchase agreements) /offered in the afternoon/ (note)"
        = .ok "Sec. lending: pm"
    ∧ (∀ (s : String) (g : List Char),
        searchRules.any (fun pr => containsCI pr.1 s) = false →
        matchMaturityFixed s.toList = none →
        matchMaturityAuction s.toList = none →
        matchSession s.toList = some g →
        String.mk g ≠ "morning" → String.mk g ≠ "afternoon" →
        get_short_name s = .error "Expected morning / afternoon flag not found") := by
  refine ⟨by decide, by decide, by decide, by decide, by decide, ?_⟩
  intro s g h1 h2 h3 h4 hm ha
  have hfind : searchRules.find? (fun pr => containsCI pr.1 s) = none := by
    rw [List.find?_eq_none]
    intro x hx
    exact (List.any_eq_false.mp h1) x hx
  simp only [String.toList] at h2 h3 h4
  simp [get_short_name, String.toList, hfind, h2, h3, h4, hm, ha]

/-- C4, witness for the session-token conjunct: the unexpected token
`evening` is a hard classification error. -/
theorem c4_classifier_witness :
    get_short_name
      "Securities lending (Sales of JGSs under repurchase agreements) /offered in the evening/ (note)"
      = .error "Expected morning / afternoon flag not found" :=
  c4_classifier_concrete.2.2.2.2.2
    "Securities lending (Sales of JGSs under repurchase agreements) /offered in the evening/ (note)"
    ("evening".toList) (by decide) (by decide) (by decide) (by decide) (by decide) (by decide)

/-! ### C6 — the Operation model does not enforce instrument uniqueness -/

/-- C6, counterexample: two `AddTransaction` calls with the same instrument
produce an `Operation` holding two transactions with equal instrument names,
so the claimed at-most-one-per-instrument invariant is not maintained by the
model. -/
theorem c6_duplicate_counterexample :
    ¬ ((((Operation.mk d2023 []).AddTransaction "JGBs: 5-10y" "JPY" 100).AddTransaction
        "JGBs: 5-10y" "JPY" 100).Instruments.Nodup) := by decide

/-- C6, amended: `AddTransaction` performs no uniqueness check — it appends a
fresh transaction unconditionally, whatever instruments are already present,
so an `Operation` with two transactions on the same instrument is a
representable (and, via the fixed-rate table, actually produced) state;
uniqueness holds only as far as callers aggregate before construction. -/
theorem c6_addtransaction_appends (op : Operation) (i c : String) (u : ℤ) :
    (op.AddTransaction i c u).Transactions
      = op.Transactions ++ [{ Instrument := i, Currency := c, Units := u }] := rfl

/-! ### C7 — TransactionValue -/

theorem except_bind_ok {ε α β : Type _} (a : α) (f : α → Except ε β) :
    (Except.ok a : Except ε α) >>= f = f a := rfl

theorem tv_fold_aux (l : List Transaction)
    (h : ∀ t ∈ l, t.Instrument.take 3 = "JGB" → t.SuccessfulBids.isSome = true) :
    ∀ total : ℚ,
      List.foldlM
        (fun (total : ℚ) (t : Transaction) =>
          if t.Instrument.take 3 == "JGB" then
            match t.SuccessfulBids with
            | some sb =>
              (Except.ok (total + ((sb * t.Units : ℤ) : ℚ) / 1000) : Except String ℚ)
            | none => Except.error "TypeError: unsupported operand type"
          else Except.ok total)
        total l
      = .ok (total + ((l.filter (fun t => t.Instrument.take 3 == "JGB")).map
          (fun t => (((t.SuccessfulBids.getD 0) * t.Units : ℤ) : ℚ) / 1000)).sum) := by
  induction l with
  | nil =>
    intro total
    simp
    rfl
  | cons t ts ih =>
    intro total
    rw [List.foldlM_cons]
    by_cases hj : (t.Instrument.take 3 == "JGB") = true
    · obtain ⟨sb, hsb⟩ := Option.isSome_iff_exists.mp
        (h t (List.mem_cons_self _ _) (by simpa using hj))
      rw [if_pos hj]
      simp only [hsb, except_bind_ok]
      rw [ih (fun x hx => h x (List.mem_cons_of_mem t hx))]
      rw [List.filter_cons]
      simp only [hj, if_true, List.map_cons, List.sum_cons, hsb, Option.getD_some]
      simp [add_assoc]
    · simp only [Bool.not_eq_true] at hj
      rw [if_neg (by simp [hj]), except_bind_ok]
      rw [ih (fun x hx => h x (List.mem_cons_of_mem t hx))]
      rw [List.filter_cons]
      simp [hj]

/-- C7: `TransactionValue inst` returns `SuccessfulBids * Units / 1000` of
the first transaction carrying the instrument, and `0.0` when no transaction
does; the spec's concrete scenario (successful bids 200 at unit scale 100)
gives `20`; and `TransactionValue` with no instrument sums that value over
exactly the transactions whose instrument starts with the JGB prefix (given
that those transactions carry a successful-bid volume, as all constructed
data does). -/
theorem c7_transaction_value :
    (∀ (op : Operation) (inst : String) (t : Transaction) (sb : ℤ),
        op.Transactions.find? (fun tr => tr.Instrument == inst) = some t →
        t.SuccessfulBids = some sb →
        op.TransactionValue (some inst) = .ok (((sb * t.Units : ℤ) : ℚ) / 1000))
    ∧ (∀ (op : Operation) (inst : String), inst ∉ op.Instruments →
        op.TransactionValue (some inst) = .ok 0)
    ∧ opScenario.TransactionValue (some "JGBs: 5-10y") = .ok 20
    ∧ (∀ op : Operation,
        (∀ t ∈ op.Transactions, t.Instrument.take 3 = "JGB" →
          t.SuccessfulBids.isSome = true) →
        op.TransactionValue none = .ok
          (((op.Transactions.filter (fun t => t.Instrument.take 3 == "JGB")).map
            (fun t => (((t.SuccessfulBids.getD 0) * t.Units : ℤ) : ℚ) / 1000)).sum)) := by
  refine ⟨?_, ?_, ?_, ?_⟩
  · intro op inst t sb hf hsb
    simp [Operation.TransactionValue, hf, hsb]
  · intro op inst hmem
    have hf : op.Transactions.find? (fun tr => tr.Instrument == inst) = none := by
      rw [List.find?_eq_none]
      intro t ht
      simp only [beq_iff_eq]
      intro he
      exact hmem (he ▸ List.mem_map_of_mem Transaction.Instrument ht)
    simp [Operation.TransactionValue, hf]
  · rw [show opScenario.TransactionValue (some "JGBs: 5-10y")
        = .ok (((200 * 100 : ℤ) : ℚ) / 1000) from rfl]
    norm_num [Except.ok.injEq]
  · intro op h
    have := tv_fold_aux op.Transactions h 0
    simpa [Operation.TransactionValue] using this

/-- C7, witness: on the scenario operation, an absent instrument values to
`0`, and the present instrument values to `200 * 100 / 1000`. -/
theorem c7_transaction_value_witness :
    opScenario.TransactionValue (some "CP") = .ok 0 ∧
    opScenario.TransactionValue (some "JGBs: 5-10y")
      = .ok (((200 * 100 : ℤ) : ℚ) / 1000) :=
  ⟨c7_transaction_value.2.1 opScenario "CP" (by decide),
   c7_transaction_value.1 opScenario "JGBs: 5-10y" trScenario 200 rfl rfl⟩

/-! ### C5 — fixed-rate annotation handling in the record builder -/

theorem except_bind_error {ε α β : Type _} (e : ε) (f : α → Except ε β) :
    (Except.error e : Except ε α) >>= f = .error e := rfl

theorem setRate_instruments (op : Operation) (i : String) (r : ℚ) :
    (setRate op i r).Instruments = op.Instruments := by
  unfold setRate Operation.Instruments
  exact setRateFirst_map_instrument i r op.Transactions

theorem transaction_isSome_iff (op : Operation) (i : String) :
    (op.Transaction i).isSome = true ↔ i ∈ op.Instruments :=
  instrument_find?_isSome_iff op.Transactions i

theorem notes_fold_isOk (base : Operation) (notes : List NoteRow) :
    ∀ op : Operation, op.Instruments = base.Instruments →
      ((notes.foldlM noteStep op).isOk = true
        ↔ ∀ n ∈ notes, ∃ b, maturity_bucket n.Maturity = some b
            ∧ b ∈ base.Instruments) := by
  induction notes with
  | nil =>
    intro op hop
    rw [List.foldlM_nil]
    exact ⟨fun _ => by simp, fun _ => rfl⟩
  | cons n ns ih =>
    intro op hop
    rw [List.foldlM_cons]
    cases hb : maturity_bucket n.Maturity with
    | none =>
      have hstep : noteStep op n = .error "Unrecognized fixed rate operation maturity" := by
        simp [noteStep, hb]
      rw [hstep, except_bind_error]
      simp [Except.isOk, Except.toBool, List.forall_mem_cons, hb]
    | some b =>
      cases ht : op.Transaction b with
      | none =>
        have hstep : noteStep op n = .error "Unrecognized fixed rate operation maturity" := by
          simp [noteStep, hb, ht]
        have hnb : b ∉ base.Instruments := by
          rw [← hop]
          intro hmem
          have hs := (transaction_isSome_iff op b).mpr hmem
          rw [ht] at hs
          simp at hs
        rw [hstep, except_bind_error]
        simp [Except.isOk, Except.toBool, List.forall_mem_cons, hb, hnb]
      | some t =>
        have hstep : noteStep op n = .ok (setRate op b n.Rate) := by
          simp [noteStep, hb, ht]
        have hbm : b ∈ base.Instruments := by
          rw [← hop]
          exact (transaction_isSome_iff op b).mp (by rw [ht]; rfl)
        rw [hstep, except_bind_ok,
            ih (setRate op b n.Rate) (by rw [setRate_instruments]; exact hop)]
        simp [List.forall_mem_cons, hb, hbm]

/-- C5: the annotation maturity map sends 2, 5, 10, 20 to the four canonical
fixed-rate buckets and nothing else anywhere; building a day with supplied
annotations succeeds exactly when every annotation has a mapped bucket whose
transaction already exists in that day's data; and a successful build with an
annotation sets the rate of that bucket's transaction to the annotation's
rate.  Any other maturity, or an annotation whose bucket has no transaction,
is the hard `ValueError`. -/
theorem c5_add_operation_annotations :
    (maturity_bucket 2 = some "JGBs: FR 1-3y"
      ∧ maturity_bucket 5 = some "JGBs: FR 3-5y"
      ∧ maturity_bucket 10 = some "JGBs: FR 5-10y"
      ∧ maturity_bucket 20 = some "JGBs: FR 10-25y")
    ∧ (∀ m : ℤ, m ∉ ([2, 5, 10, 20] : List ℤ) → maturity_bucket m = none)
    ∧ (∀ (d : PyDate) (data : List CleanRow) (notes : List NoteRow),
        (add_operation d data (some notes)).isOk = true
          ↔ ∀ n ∈ notes, ∃ b, maturity_bucket n.Maturity = some b
              ∧ b ∈ (baseOperation d data).Instruments)
    ∧ (∀ (d : PyDate) (data : List CleanRow) (n : NoteRow) (b : String)
          (op' : Operation),
        maturity_bucket n.Maturity = some b →
        add_operation d data (some [n]) = .ok op' →
        (op'.Transaction b).map Transaction.Rate = some (some n.Rate)) := by
  refine ⟨⟨by decide, by decide, by decide, by decide⟩, ?_, ?_, ?_⟩
  · intro m hm
    simp only [List.mem_cons, List.not_mem_nil, or_false, not_or] at hm
    simp [maturity_bucket, hm.1, hm.2.1, hm.2.2.1, hm.2.2.2]
  · intro d data notes
    exact notes_fold_isOk (baseOperation d data) notes (baseOperation d data) rfl
  · intro d data n b op' hb hok
    rw [show add_operation d data (some [n])
        = [n].foldlM noteStep (baseOperation d data) from rfl] at hok
    rw [List.foldlM_cons] at hok
    cases hbt : (baseOperation d data).Transaction b with
    | none =>
      have hstep : noteStep (baseOperation d data) n
          = .error "Unrecognized fixed rate operation maturity" := by
        simp [noteStep, hb, hbt]
      rw [hstep, except_bind_error] at hok
      exact absurd hok (by simp)
    | some t =>
      have hstep : noteStep (baseOperation d data) n
          = .ok (setRate (baseOperation d data) b n.Rate) := by
        simp [noteStep, hb, hbt]
      rw [hstep, except_bind_ok] at hok
      have hok2 : (Except.ok (setRate (baseOperation d data) b n.Rate)
          : Except String Operation) = Except.ok op' := by
        rw [List.foldlM_nil] at hok
        exact hok
      have hop' : op' = setRate (baseOperation d data) b n.Rate := by
        injection hok2 with h
        exact h.symm
      subst hop'
      unfold Operation.Transaction setRate
      rw [find?_setRateFirst_self]
      have hfind : (baseOperation d data).Transactions.find?
          (fun tr => tr.Instrument == b) = some t := hbt
      rw [hfind]
      rfl

/-- C5, witness: an annotation with maturity 10 on a day whose data holds a
`"JGBs: FR 5-10y"` transaction builds successfully, and maturity 7 has no
bucket. -/
theorem c5_add_operation_witness :
    (add_operation d2023 [frCleanRow] (some [frNote])).isOk = true ∧
    maturity_bucket 7 = none :=
  ⟨(c5_add_operation_annotations.2.2.1 d2023 [frCleanRow] [frNote]).mpr (by decide),
   c5_add_operation_annotations.2.1 7 (by decide)⟩

/-! ### C8 — the All token forces volume mode and expands the filter -/

/-- C8: with `"All"` among the requested instruments, a query with
`by_rate = true` returns exactly the output of the identical query with
`by_rate = false` (the flag is forced off before any data is touched), and
membership in the instrument filter is exactly membership in the closed
JGB-family list or in the explicitly requested instruments. -/
theorem c8_all_forces_volume (operations : List Operation)
    (instruments : List String) (sd ed : PyDate) (monthly : Bool)
    (h : "All" ∈ instruments) :
    get_chart_data operations instruments sd ed true monthly
      = get_chart_data operations instruments sd ed false monthly
    ∧ ∀ i : String,
        i ∈ inst_filter_of instruments ↔ i ∈ jgb_filter ∨ i ∈ instruments := by
  constructor
  · simp [get_chart_data, h]
  · intro i
    unfold inst_filter_of
    rw [if_pos h]
    exact List.mem_union_iff

/-- C8, witness: the concrete aggregate query over the fixtures, and the
filter membership of an explicitly added non-JGB instrument. -/
theorem c8_all_forces_volume_witness :
    get_chart_data [opScenario, opOther] ["All", "CP"] d2023 ⟨2023, 2, 1⟩ true true
      = get_chart_data [opScenario, opOther] ["All", "CP"] d2023 ⟨2023, 2, 1⟩ false true
    ∧ ("CP" ∈ inst_filter_of ["All", "CP"] ↔
        "CP" ∈ jgb_filter ∨ "CP" ∈ ["All", "CP"]) :=
  ⟨(c8_all_forces_volume [opScenario, opOther] ["All", "CP"] d2023 ⟨2023, 2, 1⟩ true
      (by decide)).1,
   (c8_all_forces_volume [opScenario, opOther] ["All", "CP"] d2023 ⟨2023, 2, 1⟩ true
      (by decide)).2 "CP"⟩

/-! ### C10 — the query's date axis omits non-trading operations -/

/-- C10: in daily mode, a successful query's date axis is exactly the dates
of the operations inside the window holding at least one instrument of the
(possibly `"All"`-expanded) filter, in collection order; consequently, under
the collection invariant of pairwise-distinct dates, an in-window operation
holding none of the filter's instruments contributes no row — its date is
absent from the axis. -/
theorem c10_date_axis (operations : List Operation) (instruments : List String)
    (sd ed : PyDate) (rate : Bool) (c : Chart)
    (h : get_chart_data operations instruments sd ed rate false = .ok c) :
    c.Dates = (chart_ops operations instruments sd ed).map Operation.Date
    ∧ ((operations.map Operation.Date).Nodup →
        ∀ op ∈ operations, pdLe sd op.Date = true → pdLe op.Date ed = true →
          (∀ i ∈ op.Instruments, i ∉ inst_filter_of instruments) →
          op.Date ∉ c.Dates) := by
  have hd : c.Dates = (chart_ops operations instruments sd ed).map Operation.Date := by
    unfold get_chart_data at h
    cases hm : instruments.mapM (chart_values (chart_ops operations instruments sd ed)
        (if "All" ∈ instruments then false else rate)) with
    | error e =>
      rw [hm] at h
      exact absurd h (by simp [Except.bind])
    | ok vs =>
      rw [hm] at h
      simp only [Except.bind, Bool.false_eq_true, if_false] at h
      have := congrArg Chart.Dates (Except.ok.inj h)
      exact this.symm
  refine ⟨hd, ?_⟩
  intro hnd op hop hsd hed hnone
  rw [hd]
  intro hmem
  rcases List.mem_map.mp hmem with ⟨op', hop', hdate⟩
  have hop'mem : op' ∈ operations := List.mem_of_mem_filter hop'
  have hpred := List.of_mem_filter hop'
  have heq : op' = op :=
    List.inj_on_of_nodup_map hnd hop'mem hop hdate
  subst heq
  simp only [Bool.and_eq_true, List.any_eq_true] at hpred
  rcases hpred.2 with ⟨i, hi, hdec⟩
  exact hnone i hi (of_decide_eq_true hdec)

/-- C10, witness: on the fixtures, the daily query for `"JGBs: 5-10y"` over
a window containing both operations has the date axis `[2023-01-10]`, and
the in-window non-trading operation's date `2023-01-11` is absent. -/
theorem c10_date_axis_witness :
    chartW.Dates
      = (chart_ops [opScenario, opOther] ["JGBs: 5-10y"] d2023 ⟨2023, 2, 1⟩).map
          Operation.Date
    ∧ (⟨2023, 1, 11⟩ : PyDate) ∉ chartW.Dates := by
  have hthm := c10_date_axis [opScenario, opOther] ["JGBs: 5-10y"] d2023
    ⟨2023, 2, 1⟩ false chartW rfl
  refine ⟨hthm.1, ?_⟩
  exact hthm.2 (by decide) opOther
    (List.mem_cons_of_mem _ (List.mem_cons_self _ _)) (by decide) (by decide) (by decide)

/-! ### C3 — normalizer aggregation -/

/-- C3, counterexample: two raw rows classifying to the same instrument with
yields 0.5 and 0.3 normalize to a single row whose yield column holds their
sum 0.8 — the daily normalizer's `groupby(...).sum()` aggregates the yield
column exactly like the bid volumes, so yields ARE summed, contradicting the
claim as stated. -/
theorem c3_yields_summed_counterexample :
    clean_up_data [rawRow1, rawRow2] d2023 = .ok [cexCleanRow]
    ∧ cexCleanRow.SuccessfulYield = 4 / 5
    ∧ ¬(cexCleanRow.SuccessfulYield = 1 / 2 ∨ cexCleanRow.SuccessfulYield = 3 / 10) := by
  refine ⟨rfl, by norm_num [cexCleanRow], ?_⟩
  norm_num [cexCleanRow]

/-- C3, amended: the normalized output has at most one row per
(date, canonical instrument) pair — one row per distinct instrument, all
carrying the operation date — with competitive and successful bid volumes
summed across the raw sub-rows that classify to the same canonical
instrument; the yield column is summed by the same `groupby` (not kept
distinct); the concrete scenario 100 + 50 sums to 150; and only the excel
fixed-rate path keeps distinct yields as distinct rows, by including the
yield in its group key, giving at most one row per (date, yield, instrument)
triple. -/
theorem c3_normalizer_aggregation :
    (∀ (rows : List RawRow) (d : PyDate) (out : List CleanRow),
        clean_up_data rows d = .ok out →
        (out.map CleanRow.Instrument).Nodup ∧ ∀ c ∈ out, c.Date = d)
    ∧ (∀ (rows named : List RawRow) (d : PyDate) (out : List CleanRow),
        classifyRows rows = .ok named →
        clean_up_data rows d = .ok out →
        ∀ c ∈ out,
          c.CompetitiveBids = ((named.filter (fun r => r.Instrument = c.Instrument)).map
            (fun r => r.CompetitiveBids.getD 0)).sum
          ∧ c.SuccessfulBids = ((named.filter (fun r => r.Instrument = c.Instrument)).map
            (fun r => r.SuccessfulBids.getD 0)).sum
          ∧ c.SuccessfulYield = ((named.filter (fun r => r.Instrument = c.Instrument)).map
            (fun r => r.SuccessfulYield.getD 0)).sum)
    ∧ (clean_up_data [rawRow1, rawRow2] d2023 = .ok [cexCleanRow]
        ∧ cexCleanRow.SuccessfulBids = 150)
    ∧ (∀ ns : List NotesConv,
        ((notesAgg ns).map (fun r => (r.Date, r.SuccessfulYield, r.Instrument))).Nodup) := by
  refine ⟨?_, ?_, ⟨rfl, rfl⟩, ?_⟩
  · intro rows d out hout
    unfold clean_up_data at hout
    cases hcr : classifyRows rows with
    | error e =>
      rw [hcr, except_bind_error] at hout
      exact absurd hout (by simp)
    | ok named =>
      rw [hcr, except_bind_ok] at hout
      have hout2 : out = aggregateRows (named.map fillRow) d := (Except.ok.inj hout).symm
      subst hout2
      constructor
      · unfold aggregateRows
        rw [List.map_map]
        have hcomp : (CleanRow.Instrument ∘ groupRow (named.map fillRow) d) = id := rfl
        rw [hcomp, List.map_id]
        exact uniqueKeys_nodup _
      · intro c hc
        rcases List.mem_map.mp hc with ⟨k, _, rfl⟩
        rfl
  · intro rows named d out hcr hout
    unfold clean_up_data at hout
    rw [hcr, except_bind_ok] at hout
    have hout2 : out = aggregateRows (named.map fillRow) d := (Except.ok.inj hout).symm
    subst hout2
    intro c hc
    rcases List.mem_map.mp hc with ⟨k, _, rfl⟩
    refine ⟨?_, ?_, ?_⟩
    · show (((named.map fillRow).filter (fun r => r.1 = k)).map (fun r => r.2.1)).sum = _
      rw [List.filter_map, List.map_map]
      rfl
    · show (((named.map fillRow).filter (fun r => r.1 = k)).map (fun r => r.2.2.1)).sum = _
      rw [List.filter_map, List.map_map]
      rfl
    · show (((named.map fillRow).filter (fun r => r.1 = k)).map (fun r => r.2.2.2)).sum = _
      rw [List.filter_map, List.map_map]
      rfl
  · intro ns
    have h1 : ((notesAgg ns).map (fun r => (r.Date, r.SuccessfulYield, r.Instrument)))
        = (uniqueKeys (ns.map (fun r => (r.Date, r.SuccessfulYield, r.Instrument)))).map
            (fun k => (k.1, Cell.str k.2.1, k.2.2)) := by
      unfold notesAgg
      rw [List.map_map]
      rfl
    rw [h1]
    refine List.Nodup.map ?_ (uniqueKeys_nodup _)
    rintro ⟨a1, a2, a3⟩ ⟨b1, b2, b3⟩ hab
    simp only [Prod.mk.injEq, Cell.str.injEq] at hab
    simp [hab.1, hab.2.1, hab.2.2]

/-- C3, witness for the amended theorem: the aggregated fixture output has
unique instruments and carries the operation date. -/
theorem c3_normalizer_witness :
    ([cexCleanRow].map CleanRow.Instrument).Nodup ∧ ∀ c ∈ [cexCleanRow], c.Date = d2023 :=
  c3_normalizer_aggregation.1 [rawRow1, rawRow2] d2023 [cexCleanRow] rfl

/-! ### C9 — a mispositioned secondary table is treated as absent -/

/-- C9: whenever the boundary scan finds no second data block, or the second
block does not start exactly nine rows below the last fixed-rate title row,
`get_excel_data` returns exactly the sorted primary-table result — the
secondary table is treated as absent, contributing neither rows nor an
error. -/
theorem c9_secondary_mismatch (sh : Sheet)
    (h : (scanBlocks sh.rows).starts.length < 2 ∨
      (((scanBlocks sh.rows).starts.getD 1 (0, 0)).1 : ℤ)
        - ((scanBlocks sh.rows).FRM : ℤ) ≠ 9) :
    get_excel_data sh
      = (processPrimary sh (scanBlocks sh.rows).starts).map
          (sortLe (fun x y => pdLe x.Date y.Date)) := by
  unfold get_excel_data
  cases hp : processPrimary sh (scanBlocks sh.rows).starts with
  | error e => rfl
  | ok l =>
    by_cases h1 : (scanBlocks sh.rows).starts.length < 2
    · rw [if_pos h1]
      rfl
    · rcases h with h2 | h2
      · exact absurd h2 h1
      · rw [if_neg h1, if_pos h2]
        rfl

/-- C9, witness: on the one-block fixture sheet, the whole normalizer output
is exactly the sorted primary result. -/
theorem c9_secondary_mismatch_witness :
    get_excel_data oneBlockSheet
      = (processPrimary oneBlockSheet (scanBlocks oneBlockSheet.rows).starts).map
          (sortLe (fun x y => pdLe x.Date y.Date)) :=
  c9_secondary_mismatch oneBlockSheet (Or.inl (by decide))
